import Mathlib

/-!
Verification of the FastAPI RAG + interview-booking backend.

The definitions below are a shallow embedding of the Python sources:
  * `app/services/llm_service.py`   — intent classification and generation
  * `app/services/booking_service.py` — slot extraction and booking persistence
  * `app/schemas.py`                — the `BookingRecord` validators
  * `app/routers/rag.py`            — the `/rag/ask` orchestrator
  * `app/routers/booking.py`        — the `/booking/schedule` endpoint
  * `app/services/chunker.py`       — `fixed_chunk`
Remote calls are modelled by an explicit outcome parameter (`Except`/sum
types); the Redis conversation memory is modelled as an append-only log of
(session, role, text) entries; the Mongo bookings collection as a list of
(id, document) pairs with a fresh-id counter.
-/

namespace RagBooking

/-- Message role stored in conversation memory (`redis_memory.add_message`). -/
inductive Role where
  | user
  | assistant
deriving DecidableEq, Repr

/-- One `rpush`ed conversation entry: session key, role, text. -/
structure MemEntry where
  session : String
  role : Role
  text : String
deriving DecidableEq, Repr

/-- The Redis conversation store, modelled as the append-only global log of
`rpush` operations.  `get_messages sid` reads the sublist for one key. -/
abbrev MemLog := List MemEntry

/-- `redis_memory.add_message`: appends one entry to the session's list. -/
def addMessage (log : MemLog) (sid : String) (role : Role) (text : String) : MemLog :=
  List.append log [⟨sid, role, text⟩]

/-- `redis_memory.get_messages`: the entries of one session, oldest first. -/
def getMessages (log : MemLog) (sid : String) : List (Role × String) :=
  (log.filter (fun e => e.session = sid)).map (fun e => (e.role, e.text))

/-! Embedding of `app/services/llm_service.py` -/

/-- Parsed JSON body of a successful remote classification call
(`detect_booking_intent`): the fields read out of `result`. -/
structure RemoteIntent where
  is_booking : Bool
  confidence : ℚ
  reason : String
deriving DecidableEq, Repr

/-- Result dictionary returned by `detect_booking_intent`. -/
structure IntentResult where
  is_booking : Bool
  confidence : ℚ
  reason : String
deriving DecidableEq, Repr

/-- Python `needle in haystack` on strings. -/
def strIn (needle haystack : String) : Bool :=
  decide (needle.toList <:+: haystack.toList)

/-- Python `s.strip()`: drop leading and trailing whitespace.  (Python also
strips some further Unicode whitespace; the ASCII set suffices here.) -/
def pyStrip (s : String) : String :=
  ⟨((s.data.dropWhile Char.isWhitespace).reverse.dropWhile Char.isWhitespace).reverse⟩

/-- Python `s.lower()` (ASCII case mapping). -/
def pyLower (s : String) : String :=
  ⟨s.data.map Char.toLower⟩

/-- Python `s[:n]` on a string (by code point, as in Python). -/
def pyTake (s : String) (n : Nat) : String :=
  ⟨s.data.take n⟩

/-- Helper for `pySplit`: accumulate the current piece (reversed). -/
def pySplitAux (c : Char) : List Char → List Char → List String
  | [], acc => [⟨acc.reverse⟩]
  | x :: xs, acc =>
      if x = c then (⟨acc.reverse⟩ : String) :: pySplitAux c xs []
      else pySplitAux c xs (x :: acc)

/-- Python `s.split(c)` for a one-character separator: splits at every
occurrence, keeping empty pieces (`"a::b".split(":") = ["a","","b"]`). -/
def pySplit (c : Char) (s : String) : List String :=
  pySplitAux c s.data []

/-- The fixed fallback vocabulary of `detect_booking_intent`. -/
def intentKeywords : List String :=
  ["interview", "schedule", "book", "meet", "call", "talk", "hire"]

/-- The `except` branch of `detect_booking_intent`: keyword heuristic over
`query.lower()`. -/
def fallbackIntent (query : String) : IntentResult :=
  let is_booking := intentKeywords.any (fun k => strIn k (pyLower query))
  ⟨is_booking, if is_booking then 9/10 else 1/10, "fallback"⟩

/-- `LLMService.detect_booking_intent`, with the remote call's outcome made
explicit: `.ok r` is a transport success whose body parsed to `r`;
`.error ()` is any transport failure, malformed response, or parse failure
(all reach the same `except` clause). -/
def detectBookingIntent (remote : Except Unit RemoteIntent) (query : String) :
    IntentResult :=
  match remote with
  | .ok r => ⟨r.is_booking, r.confidence, r.reason⟩
  | .error _ => fallbackIntent query

/-- Outcome of the remote chat-completion call made by
`LLMService.generate_answer` (the `/rag/ask` answering branch additionally
wraps it in `asyncio.wait_for(…, timeout=30.0)`). -/
inductive GenOutcome where
  | ok (text : String)
  | fail
  | timeout
deriving DecidableEq, Repr

/-- `LLMService.generate_answer`: on any exception it returns a fixed apology
instead of raising.  The 30s `wait_for` timeout in `rag.ask` is handled by
the caller (`askHandler`). -/
def generateAnswer (outcome : GenOutcome) : Except Unit String :=
  match outcome with
  | .ok s => .ok (pyStrip s)
  | .fail => .ok "Sorry, I\x27m having trouble responding right now."
  | .timeout => .error ()

end RagBooking

namespace RagBooking

/-! Embedding of `app/services/booking_service.py` — slot extraction -/

/-- The `data` object of a parsed extraction response: the four booking
fields, each `null` (`none`) or a string.  Other JSON keys are never read. -/
structure ExtractData where
  name : Option String
  email : Option String
  date : Option String
  time : Option String
deriving DecidableEq, Repr

/-- The empty dict `{}` (default of `result.get("data", {})`). -/
def ExtractData.empty : ExtractData := ⟨none, none, none, none⟩

/-- `data.get(f)` for the four required field names; any other key is absent. -/
def ExtractData.get (d : ExtractData) (f : String) : Option String :=
  if f = "name" then d.name
  else if f = "email" then d.email
  else if f = "date" then d.date
  else if f = "time" then d.time
  else none

/-- Python truthiness test `not data.get(f)` for a JSON value that is either
`null` or a string: true when absent, `null`, or the empty string. -/
def fieldMissing (v : Option String) : Bool :=
  match v with
  | none => true
  | some s => s = ""

/-- `required_fields` in `extract_booking_info`. -/
def requiredFields : List String := ["name", "email", "date", "time"]

/-- Parsed JSON body of a successful remote extraction call: the three keys
the model is instructed to emit.  `extract_booking_info` only ever reads
`data`. -/
structure RemoteExtract where
  complete : Bool
  data : ExtractData
  missing_fields : List String
deriving DecidableEq, Repr

/-- The result dictionary of `extract_booking_info`. -/
structure ExtractResult where
  complete : Bool
  data : ExtractData
  missing_fields : List String
deriving DecidableEq, Repr

/-- `BookingService.extract_booking_info`, with the remote call's outcome
explicit.  On success the completeness is recomputed locally from `data`;
on `json.JSONDecodeError` or any other exception the fixed
all-missing result is returned (the function never raises).  The `query`
and `conversation_history` arguments only feed the prompt. -/
def extractBookingInfo (query : String) (history : List (Role × String))
    (remote : Except Unit RemoteExtract) : ExtractResult :=
  match remote with
  | .ok result =>
      let data := result.data
      let missing := requiredFields.filter (fun f => fieldMissing (data.get f))
      { complete := missing.length = 0
        data := data
        missing_fields := missing }
  | .error _ =>
      { complete := false
        data := ExtractData.empty
        missing_fields := ["name", "email", "date", "time"] }

end RagBooking

namespace RagBooking

/-! Embedding of `app/services/booking_service.py` — persistence

The Mongo `bookings` collection is modelled as a list of (id, document)
pairs together with a counter supplying the next fresh `ObjectId`. -/

/-- A document of the `bookings` collection as written by `save_booking`. -/
structure BookingDoc where
  name : String
  email : String
  date : String
  time : String
  session_id : String
  created_at : Nat
deriving DecidableEq, Repr

/-- The `bookings` collection.  `next_id` models Mongo's generation of a
fresh `ObjectId` on each insert; `now` models `datetime.utcnow()`. -/
structure BookingsDB where
  docs : List (Nat × BookingDoc)
  next_id : Nat
  now : Nat
deriving DecidableEq, Repr

/-- The field dictionary handed to `save_booking` (`booking_data`). -/
structure BookingFields where
  name : String
  email : String
  date : String
  time : String
deriving DecidableEq, Repr

/-- `BookingService.save_booking`: inserts the record and returns the new
id.  Freshness of the inserted id is Mongo's `ObjectId` contract. -/
def saveBooking (bf : BookingFields) (sid : String) (db : BookingsDB) :
    Nat × BookingsDB :=
  let doc : BookingDoc :=
    ⟨bf.name, bf.email, bf.date, bf.time, sid, db.now⟩
  (db.next_id,
   { docs := db.docs ++ [(db.next_id, doc)]
     next_id := db.next_id + 1
     now := db.now })

/-- Ids already present in the collection are below the fresh-id counter:
the invariant Mongo's unique `ObjectId` generation maintains. -/
def BookingsDB.WF (db : BookingsDB) : Prop :=
  ∀ p ∈ db.docs, p.1 < db.next_id

end RagBooking

namespace RagBooking

/-! Embedding of `app/schemas.py` — the `BookingRecord` validators -/

/-- The digit run accepted by Python `int()`: a non-empty sequence of
decimal digits with single underscores allowed between digits (not
leading, trailing, doubled, or next to the sign).  Non-ASCII Unicode
decimal digits, which `int()` also accepts, are not modelled; the
validators built on this are only evaluated at ASCII inputs, on which
every supported Python agrees. -/
def pyIntDigitsOk : List Char → Bool
  | [] => false
  | [c] => c.isDigit
  | c :: '_' :: rest => c.isDigit && pyIntDigitsOk rest
  | c :: rest => c.isDigit && pyIntDigitsOk rest

/-- Python `int(s)` on a decimal string, modelled from its documented
behaviour: surrounding whitespace and an optional single sign around a
digit run with optional digit-group underscores (`int("1_0") = 10`).
`none` models the `ValueError`. -/
def pyInt (s : String) : Option Int :=
  let t := (pyStrip s).data
  let (sign, digits) :=
    match t with
    | '-' :: rest => ((-1 : Int), rest)
    | '+' :: rest => ((1 : Int), rest)
    | _ => ((1 : Int), t)
  if pyIntDigitsOk digits then
    some (sign *
      (digits.foldl (fun acc c => if c = '_' then acc else acc * 10 + (c.toNat - 48)) 0 : Nat))
  else none

/-- The `validate_time` field validator of `BookingRecord`: split on `:`,
exactly two parts, both `int(…)`-parsable, hour in 0..23 and minute in
0..59. -/
def timeValid (v : String) : Bool :=
  match pySplit ':' v with
  | [p1, p2] =>
      match pyInt p1, pyInt p2 with
      | some hour, some minute =>
          decide (0 ≤ hour ∧ hour ≤ 23 ∧ 0 ≤ minute ∧ minute ≤ 59)
      | _, _ => false
  | _ => false

/-- Length of month `m` in year `y` (Gregorian), as `datetime` uses. -/
def daysInMonth (y m : Nat) : Nat :=
  if m = 2 then
    if (y % 4 = 0 ∧ y % 100 ≠ 0) ∨ y % 400 = 0 then 29 else 28
  else if m = 1 ∨ m = 3 ∨ m = 5 ∨ m = 7 ∨ m = 8 ∨ m = 10 ∨ m = 12 then 31
  else 30

/-- Decimal value of a digit list. -/
def digitsToNat (cs : List Char) : Nat :=
  cs.foldl (fun acc c => acc * 10 + (c.toNat - 48)) 0

/-- The time tail `fromisoformat` accepts on every supported Python:
`HH`, `HH:MM`, or `HH:MM:SS` with in-range components.  (Fractional
seconds, UTC offsets, and the wider grammar of Python 3.11+ are not
modelled; the theorems evaluate dates only at inputs on which all
supported versions agree.) -/
def isoTimeTailValid : List Char → Bool
  | [h1, h2] =>
      [h1, h2].all Char.isDigit && decide (digitsToNat [h1, h2] ≤ 23)
  | [h1, h2, c3, m1, m2] =>
      (c3 = ':' : Bool) && [h1, h2, m1, m2].all Char.isDigit &&
        decide (digitsToNat [h1, h2] ≤ 23 ∧ digitsToNat [m1, m2] ≤ 59)
  | [h1, h2, c3, m1, m2, c4, s1, s2] =>
      (c3 = ':' : Bool) && (c4 = ':' : Bool) &&
        [h1, h2, m1, m2, s1, s2].all Char.isDigit &&
        decide (digitsToNat [h1, h2] ≤ 23 ∧ digitsToNat [m1, m2] ≤ 59 ∧
          digitsToNat [s1, s2] ≤ 59)
  | _ => false

/-- The `validate_date` field validator of `BookingRecord`, which calls
`datetime.fromisoformat` (library code): modelled as the grammar every
supported Python accepts — a strict `YYYY-MM-DD` date part with a real
calendar month/day and year at least 1 (`fromisoformat` rejects year
0000), optionally followed by any single separator character and a time
tail `HH[:MM[:SS]]`.  So non-canonical datetimes such as
`"2025-12-25 14:30:00"` pass, as they do in the program. -/
def dateValid (v : String) : Bool :=
  match v.toList with
  | y1 :: y2 :: y3 :: y4 :: c1 :: m1 :: m2 :: c2 :: d1 :: d2 :: rest =>
      if c1 = '-' ∧ c2 = '-' ∧ [y1, y2, y3, y4, m1, m2, d1, d2].all Char.isDigit then
        let y := digitsToNat [y1, y2, y3, y4]
        let m := digitsToNat [m1, m2]
        let d := digitsToNat [d1, d2]
        decide (1 ≤ y ∧ 1 ≤ m ∧ m ≤ 12 ∧ 1 ≤ d ∧ d ≤ daysInMonth y m) &&
          (match rest with
           | [] => true
           | _sep :: tail => isoTimeTailValid tail)
      else false
  | _ => false

/-- Modelled from the spec: pydantic's `EmailStr` (library code, absent
from the repository) — "email (string, must match a standard address
syntax)".  Modelled as one `@` separating a non-empty local part from a
non-empty domain that contains a dot not at either end. -/
def emailValid (s : String) : Bool :=
  match pySplit '@' s with
  | [lp, dom] =>
      ¬ lp = "" ∧ ¬ dom = "" ∧ strIn "." dom ∧
        ¬ dom.data.head? = some '.' ∧ ¬ dom.data.getLast? = some '.'
  | _ => false

/-- A validated `BookingRecord` (`app/schemas.py`). -/
structure BookingRecord where
  name : String
  email : String
  date : String
  time : String
  session_id : String
  created_at : Option Nat
deriving DecidableEq, Repr

/-- Pydantic construction of `BookingRecord`: `name` has `min_length=1`,
`email` is an `EmailStr`, and the two field validators run.  `.error`
models the `ValidationError` FastAPI turns into a 422 response. -/
def mkBookingRecord (name email date time : String) (sidOpt : Option String) :
    Except String BookingRecord :=
  if name.length < 1 then .error "name: String should have at least 1 character"
  else if ¬ emailValid email then .error "email: value is not a valid email address"
  else if ¬ dateValid date then .error "Date must be in ISO format YYYY-MM-DD"
  else if ¬ timeValid time then .error "Time must be in HH:MM format"
  else .ok ⟨name, email, date, time, sidOpt.getD "anonymous", none⟩

/-- `BookingService.get_booking_by_id`: `find_one({"_id": id})`, then
reconstruction of a pydantic `BookingRecord` from the stored document.
The field validators run again on the stored values, and the `except`
clause re-raises the `ValidationError` (`.error`) instead of returning a
record; `.ok none` is the not-found case. -/
def getBookingById (bid : Nat) (db : BookingsDB) :
    Except String (Option BookingRecord) :=
  match db.docs.find? (fun p => p.1 = bid) with
  | none => .ok none
  | some p =>
      match mkBookingRecord p.2.name p.2.email p.2.date p.2.time (some p.2.session_id) with
      | .ok r => .ok (some { r with created_at := some p.2.created_at })
      | .error e => .error e

end RagBooking

namespace RagBooking

/-! Embedding of `app/routers/rag.py` — the `/rag/ask` orchestrator -/

/-- One retrieval hit as consumed by `ask`: `hit.get("text", "")` and
`hit.get("meta", {}).get("source", "Unknown document")`. -/
structure Hit where
  text : String
  sourceName : Option String
deriving DecidableEq, Repr

/-- A `{source, preview}` entry of the response. -/
structure SourceInfo where
  source : String
  preview : String
deriving DecidableEq, Repr

/-- The source/preview-building loop over the retrieval hits: hits whose
stripped text is empty are skipped; the preview is
`text.strip()[:150] + ("..." if len(text.strip()) > 150 else "")`. -/
def buildSources (hits : List Hit) : List SourceInfo :=
  hits.filterMap (fun h =>
    let t := pyStrip h.text
    if t = "" then none
    else some ⟨h.sourceName.getD "Unknown document",
               pyTake t 150 ++ (if 150 < t.length then "..." else "")⟩)

/-- The context strings gathered by the same loop. -/
def buildContexts (hits : List Hit) : List String :=
  hits.filterMap (fun h =>
    let t := pyStrip h.text
    if t = "" then none else some t)

/-- The source-deduplication loop of `ask`, with its `seen` set made an
explicit accumulator: keep a source's first occurrence only. -/
def dedupeAux : List SourceInfo → List String → List SourceInfo
  | [], _ => []
  | s :: rest, seen =>
      if s.source ∈ seen then dedupeAux rest seen
      else s :: dedupeAux rest (seen ++ [s.source])

/-- `unique_sources` as computed at the end of the answering branch. -/
def dedupeSources (ss : List SourceInfo) : List SourceInfo :=
  dedupeAux ss []

/-- Specification-side deduplication, written the way the spec phrases it:
keep each source identifier's first occurrence, preserving order.  Used to
compare the code's `seen`-set loop against the spec's wording. -/
def firstSeenDedupBy : List SourceInfo → List SourceInfo
  | [] => []
  | s :: rest =>
      s :: firstSeenDedupBy (rest.filter (fun t => t.source ≠ s.source))
termination_by l => l.length
decreasing_by
  simp only [List.length_cons]
  exact Nat.lt_succ_of_le (List.length_filter_le _ _)

/-- Outcomes of the remote calls a single `/rag/ask` turn may make, plus
the retrieval result, fixed up front: the turn is deterministic in these. -/
structure Env where
  intent : Except Unit RemoteIntent
  extract : Except Unit RemoteExtract
  hits : List Hit
  gen : GenOutcome
  saveFails : Bool

/-- Mutable state a turn can touch: conversation memory and bookings. -/
structure SysState where
  mem : MemLog
  db : BookingsDB
deriving DecidableEq, Repr

/-- Collaborator invocations, in call order, for the trace. -/
inductive CallTag where
  | classify
  | memRead
  | extract
  | recordSave
  | embed
  | search
  | generate
  | memWrite
deriving DecidableEq, Repr

/-- The HTTP-level outcome of `/rag/ask`. -/
inductive AskOutcome where
  | success (answer : String) (sources : List SourceInfo) (session_id : String)
      (booking_detected : Bool) (booking_data : Option ExtractData)
  | httpError (code : Nat) (detail : String)
deriving DecidableEq, Repr

/-- Result of one turn: response, post-state, and collaborator trace. -/
structure TurnResult where
  outcome : AskOutcome
  state : SysState
  calls : List CallTag
deriving DecidableEq, Repr

/-- `req.session_id or "anonymous"`. -/
def resolveSession (sidOpt : Option String) : String :=
  match sidOpt with
  | none => "anonymous"
  | some s => if s = "" then "anonymous" else s

/-- The body of the `ask` endpoint function (after FastAPI/pydantic request
validation), translated clause by clause from `app/routers/rag.py`. -/
def askHandler (env : Env) (st : SysState) (sidOpt : Option String)
    (rawQuery : String) : TurnResult :=
  let query := pyStrip rawQuery
  if query = "" then
    ⟨.httpError 400 "Query cannot be empty", st, []⟩
  else
    let sid := resolveSession sidOpt
    let intent := detectBookingIntent env.intent query
    if intent.is_booking then
      let history := getMessages st.mem sid
      let booking := extractBookingInfo query history env.extract
      if booking.complete then
        if env.saveFails then
          ⟨.httpError 500 "Something went wrong. Please try again.", st,
            [.classify, .memRead, .extract, .recordSave]⟩
        else
          let bf : BookingFields :=
            ⟨booking.data.name.getD "", booking.data.email.getD "",
             booking.data.date.getD "", booking.data.time.getD ""⟩
          let db' := (saveBooking bf sid st.db).2
          let answer :=
            "Great! I\x27ve scheduled your interview for **" ++ bf.name ++
            "** on **" ++ bf.date ++ "** at **" ++ bf.time ++
            "**. A confirmation has been sent to " ++ bf.email ++ "."
          let mem' := addMessage (addMessage st.mem sid .user query) sid .assistant answer
          ⟨.success answer [] sid true (some booking.data), ⟨mem', db'⟩,
            [.classify, .memRead, .extract, .recordSave, .memWrite, .memWrite]⟩
      else
        let answer :=
          "Sure! To complete your interview booking, please provide: **" ++
          String.intercalate ", " booking.missing_fields ++ "**."
        let mem' := addMessage (addMessage st.mem sid .user query) sid .assistant answer
        ⟨.success answer [] sid true none, ⟨mem', st.db⟩,
          [.classify, .memRead, .extract, .memWrite, .memWrite]⟩
    else
      let sources := buildSources env.hits
      let answer :=
        match generateAnswer env.gen with
        | .ok s => s
        | .error _ => "Sorry, the response took too long. Please try again."
      let mem' := addMessage (addMessage st.mem sid .user query) sid .assistant answer
      let unique_sources := dedupeSources sources
      ⟨.success answer unique_sources sid false none, ⟨mem', st.db⟩,
        [.classify, .embed, .search, .memRead, .generate, .memWrite, .memWrite]⟩

/-- The whole `/rag/ask` operation: FastAPI first checks the request model
(`AskRequest.query` has `min_length=1`, rejected as a 422 validation
error), then runs the handler. -/
def askOp (env : Env) (st : SysState) (sidOpt : Option String)
    (rawQuery : String) : TurnResult :=
  if rawQuery.length < 1 then
    ⟨.httpError 422 "String should have at least 1 character", st, []⟩
  else
    askHandler env st sidOpt rawQuery

end RagBooking

namespace RagBooking

/-! Embedding of `app/routers/booking.py` — the `/booking/schedule` endpoint -/

/-- HTTP-level outcome of `/booking/schedule`. -/
inductive ScheduleOutcome where
  | ok (booking_id : Nat) (message : String) (record : BookingRecord)
  | validationError (detail : String)
  | httpError (code : Nat)
deriving DecidableEq, Repr

/-- The `/booking/schedule` operation on raw field strings: pydantic
validates the `BookingRecord` request body (422 on failure), then
`save_booking(booking.model_dump(), booking.session_id)` persists it. -/
def scheduleOp (saveFails : Bool) (db : BookingsDB)
    (name email date time : String) (sidOpt : Option String) :
    ScheduleOutcome × BookingsDB :=
  match mkBookingRecord name email date time sidOpt with
  | .error d => (.validationError d, db)
  | .ok rec =>
      if saveFails then (.httpError 500, db)
      else
        let (bid, db') :=
          saveBooking ⟨rec.name, rec.email, rec.date, rec.time⟩ rec.session_id db
        (.ok bid
          ("Interview scheduled successfully for " ++ rec.name ++ " on " ++
            rec.date ++ " at " ++ rec.time) rec, db')

end RagBooking

namespace RagBooking

/-! Embedding of `app/services/chunker.py` — `fixed_chunk`

The `while start < text_len` loop, with an explicit fuel so that
non-termination is expressible: `none` means the fuel ran out with the
loop still running. -/

/-- One state of the `fixed_chunk` loop: the translated loop body computes
`end = min(start + chunk_size, text_len)`, appends the stripped slice,
sets `start = end - overlap` and clamps a negative `start` to 0. -/
def fixedChunkLoop (text : List Char) (chunkSize overlap : Nat) :
    Nat → Nat → List String → Option (List String)
  | 0, _, _ => none
  | fuel + 1, start, chunks =>
      if start < text.length then
        let e := min (start + chunkSize) text.length
        let piece := pyStrip (String.mk ((text.drop start).take (e - start)))
        let start' : Int := (e : Int) - (overlap : Int)
        let start'' : Nat := if start' < 0 then 0 else start'.toNat
        fixedChunkLoop text chunkSize overlap fuel start'' (chunks ++ [piece])
      else some (chunks.filter (fun c => ¬ c.isEmpty))

/-- `fixed_chunk(text, chunk_size, overlap)` run with `fuel` loop
iterations allowed.  (The `chunk_size <= 0` guard raises before the loop
and is irrelevant at the defaults `chunk_size=1000, overlap=200`.) -/
def fixedChunkFuel (text : String) (chunkSize overlap fuel : Nat) :
    Option (List String) :=
  fixedChunkLoop text.toList chunkSize overlap fuel 0 []

end RagBooking


namespace RagBooking

/-! Claims C1, C2, C5 — extractor and classifier -/

/-- C1: `extract_booking_info` computes `complete` locally: it is true iff
all four required fields are present and non-empty in the returned data,
`missing_fields` is exactly the required fields that are absent or empty,
and — with the remote response held fixed — the remote model's own
`complete` flag never influences the result. -/
theorem extract_complete_recomputed_locally (query : String)
    (history : List (Role × String)) (remote : Except Unit RemoteExtract) :
    ((extractBookingInfo query history remote).complete = true ↔
      ∀ f ∈ requiredFields,
        fieldMissing ((extractBookingInfo query history remote).data.get f) = false)
    ∧ (extractBookingInfo query history remote).missing_fields
        = requiredFields.filter
            (fun f => fieldMissing ((extractBookingInfo query history remote).data.get f))
    ∧ ∀ (r : RemoteExtract) (b : Bool),
        extractBookingInfo query history (Except.ok { r with complete := b })
          = extractBookingInfo query history (Except.ok r) := by
  refine ⟨?_, ?_, fun r b => rfl⟩
  · cases remote with
    | ok result =>
        simp only [extractBookingInfo, decide_eq_true_eq, List.length_eq_zero,
          List.filter_eq_nil_iff, Bool.not_eq_true]
    | error e =>
        simp only [extractBookingInfo]
        constructor
        · intro h; exact absurd h (by decide)
        · intro h
          exact absurd (h "name" (by decide)) (by decide)
  · cases remote with
    | ok result => rfl
    | error e => rfl

/-- C2 (counterexample): on a failing remote call whose query text contains
an email address, the fallback of `extract_booking_info` does **not**
extract that email — the returned data has no email and `"email"` is in the
missing set; no regex heuristic exists. -/
theorem extract_fallback_ignores_email_in_text :
    (extractBookingInfo "my name is Bob, my email is bob@example.com, tomorrow at 14:00"
        [] (Except.error ())).data.get "email" = none
    ∧ "email" ∈ (extractBookingInfo "my name is Bob, my email is bob@example.com, tomorrow at 14:00"
        [] (Except.error ())).missing_fields := by
  constructor
  · rfl
  · decide

/-- C2 (amended): on remote failure or unparseable output,
`extract_booking_info` never raises and returns the fixed fallback —
`complete = false`, empty data, and all four fields missing; no local
heuristic extraction is attempted. -/
theorem extract_fallback_all_missing (query : String)
    (history : List (Role × String)) (e : Unit) :
    extractBookingInfo query history (Except.error e)
      = ⟨false, ExtractData.empty, ["name", "email", "date", "time"]⟩ := rfl

/-- C5: when the remote classification call fails in any way,
`detect_booking_intent` returns the deterministic keyword heuristic —
`is_booking` is true exactly when the lowercased query contains one of the
seven fixed keywords, confidence is 0.9 on a match and 0.1 otherwise — and
two runs on identical text under forced failure agree. -/
theorem detect_intent_fallback_deterministic (e : Unit) (query : String) :
    ((detectBookingIntent (Except.error e) query).is_booking = true ↔
      ∃ k ∈ intentKeywords, strIn k (pyLower query) = true)
    ∧ (detectBookingIntent (Except.error e) query).confidence
        = (if (detectBookingIntent (Except.error e) query).is_booking then (9 : ℚ)/10 else 1/10)
    ∧ (detectBookingIntent (Except.error e) query).reason = "fallback"
    ∧ ∀ e' : Unit, detectBookingIntent (Except.error e) query
        = detectBookingIntent (Except.error e') query := by
  refine ⟨?_, rfl, rfl, fun e' => rfl⟩
  simp [detectBookingIntent, fallbackIntent, List.any_eq_true]

end RagBooking

namespace RagBooking

/-! Claim C10 — `fixed_chunk` with the default parameters -/

/-- With a positive overlap, the `fixed_chunk` loop never leaves its
running region: from any state with `start < text_len` the next state
again has `start < text_len`, so the fuel is always exhausted. -/
theorem fixedChunkLoop_no_exit (text : List Char) (chunkSize overlap : Nat)
    (hov : 0 < overlap) :
    ∀ (fuel start : Nat) (chunks : List String), start < text.length →
      fixedChunkLoop text chunkSize overlap fuel start chunks = none := by
  intro fuel
  induction fuel with
  | zero => intro start chunks _; rfl
  | succ n ih =>
      intro start chunks h
      rw [fixedChunkLoop, if_pos h]
      apply ih
      have hmin : min (start + chunkSize) text.length ≤ text.length :=
        min_le_right _ _
      split <;> omega

/-- C10: `fixed_chunk` with its default parameters
(`chunk_size=1000, overlap=200`) never terminates on any non-empty input:
after the final slice the loop resets `start` to `text_len - 200`
(clamped to 0), which is still below `text_len`, so the same final slice
is appended forever.  Formally: no fuel bound suffices. -/
theorem fixed_chunk_default_diverges (text : String) (h : text ≠ "")
    (fuel : Nat) : fixedChunkFuel text 1000 200 fuel = none := by
  apply fixedChunkLoop_no_exit text.toList 1000 200 (by omega) fuel 0 []
  have hd : text.data ≠ [] := by
    intro hdata
    exact h (by cases text; simp_all)
  have : 0 < text.data.length := List.length_pos.mpr hd
  exact this

/-- C10 witness: divergence observed at the concrete input `"hello"` with
fuel 100. -/
theorem fixed_chunk_default_diverges_witness :
    fixedChunkFuel "hello" 1000 200 100 = none :=
  fixed_chunk_default_diverges "hello" (by decide) 100

end RagBooking

namespace RagBooking

/-! Claims C3, C4, C6, C7, C8 — the orchestrator.  First some helper
lemmas about the dedup loop and the handler's branches. -/

/-- The code's `seen`-set dedup loop equals the spec-side first-seen
dedup of the entries whose source is not yet seen. -/
theorem dedupeAux_eq_firstSeen (ss : List SourceInfo) :
    ∀ seen : List String,
      dedupeAux ss seen = firstSeenDedupBy (ss.filter (fun s => s.source ∉ seen)) := by
  induction ss with
  | nil => intro seen; simp [dedupeAux, firstSeenDedupBy]
  | cons s rest ih =>
      intro seen
      by_cases hs : s.source ∈ seen
      · rw [dedupeAux, if_pos hs, ih]
        congr 1
        simp only [List.filter_cons, decide_not]
        rw [if_neg (by simp [hs])]
      · rw [dedupeAux, if_neg hs, ih]
        have hcons : (s :: rest).filter (fun t => decide (t.source ∉ seen)) =
            s :: rest.filter (fun t => decide (t.source ∉ seen)) := by
          simp [List.filter_cons, hs]
        rw [hcons, firstSeenDedupBy]
        congr 1
        rw [List.filter_filter]
        congr 1
        apply List.filter_congr
        intro t _
        simp only [List.mem_append, List.mem_singleton, decide_not]
        rw [Bool.and_comm]
        simp [not_or]

/-- `unique_sources` is exactly the first-seen dedup of the built source
list. -/
theorem dedupeSources_eq_firstSeen (ss : List SourceInfo) :
    dedupeSources ss = firstSeenDedupBy ss := by
  rw [dedupeSources, dedupeAux_eq_firstSeen]
  congr 1
  simp

/-- A string has length below one exactly when it is empty (the pydantic
`min_length=1` test). -/
theorem length_lt_one_iff (q : String) : q.length < 1 ↔ q = "" := by
  cases q with
  | mk data =>
      cases data with
      | nil => simp [String.length]
      | cons a as => simp [String.length, String.ext_iff]

/-- Everything the first-seen dedup keeps was in the input list. -/
theorem firstSeenDedupBy_subset :
    ∀ (l : List SourceInfo), ∀ x ∈ firstSeenDedupBy l, x ∈ l := by
  intro l
  induction l using firstSeenDedupBy.induct with
  | case1 => simp [firstSeenDedupBy]
  | case2 s rest ih =>
      intro x hx
      rw [firstSeenDedupBy] at hx
      rcases List.mem_cons.mp hx with h | h
      · exact h ▸ List.mem_cons_self _ _
      · exact List.mem_cons_of_mem _ (List.mem_of_mem_filter (ih x h))

/-- The first-seen dedup keeps no source identifier twice. -/
theorem firstSeenDedupBy_nodup (l : List SourceInfo) :
    ((firstSeenDedupBy l).map (fun s => s.source)).Nodup := by
  induction l using firstSeenDedupBy.induct with
  | case1 => simp [firstSeenDedupBy]
  | case2 s rest ih =>
      rw [firstSeenDedupBy]
      simp only [List.map_cons, List.nodup_cons]
      refine ⟨?_, ih⟩
      intro hmem
      obtain ⟨t, ht, hts⟩ := List.mem_map.mp hmem
      have := List.of_mem_filter (firstSeenDedupBy_subset _ t ht)
      simp [hts] at this

/-- The answering branch of `/rag/ask` in one equation: valid non-booking
query, sources built and deduplicated, the generation result (or its
timeout apology) returned, and the two memory appends. -/
theorem askOp_answering_eq (env : Env) (st : SysState) (sidOpt : Option String)
    (q : String)
    (hq : pyStrip q ≠ "")
    (hb : (detectBookingIntent env.intent (pyStrip q)).is_booking = false) :
    askOp env st sidOpt q =
      ⟨.success (match generateAnswer env.gen with
                 | .ok s => s
                 | .error _ => "Sorry, the response took too long. Please try again.")
         (dedupeSources (buildSources env.hits)) (resolveSession sidOpt) false none,
       ⟨st.mem ++ [⟨resolveSession sidOpt, .user, pyStrip q⟩,
                   ⟨resolveSession sidOpt, .assistant,
                    match generateAnswer env.gen with
                    | .ok s => s
                    | .error _ => "Sorry, the response took too long. Please try again."⟩],
        st.db⟩,
       [.classify, .embed, .search, .memRead, .generate, .memWrite, .memWrite]⟩ := by
  have hq0 : ¬ q.length < 1 := by
    rw [length_lt_one_iff]
    intro h
    subst h
    exact hq rfl
  simp [askOp, askHandler, hq0, hq, hb, addMessage]

/-- A pydantic-accepted `BookingRecord` reproduces its inputs and all its
field validators passed. -/
theorem mkBookingRecord_ok (name email date time : String) (sidOpt : Option String)
    (r : BookingRecord) (h : mkBookingRecord name email date time sidOpt = .ok r) :
    r = ⟨name, email, date, time, sidOpt.getD "anonymous", none⟩ ∧
    1 ≤ name.length ∧ emailValid email = true ∧ dateValid date = true ∧
    timeValid time = true := by
  rw [mkBookingRecord] at h
  split_ifs at h with h1 h2 h3 h4
  cases h
  exact ⟨rfl, by omega, by simpa using h2, by simpa using h3, by simpa using h4⟩

end RagBooking

namespace RagBooking

/-- C3 (counterexample): the `/rag/ask` booking-complete branch persists a
booking whose `time` field `"noonish"` is malformed — it fails the
repository's own `validate_time` and could never have been built as a
`BookingRecord` — so malformed fields are not rejected on every path that
creates a booking. -/
theorem rag_persists_malformed_time :
    (askOp ⟨.error (), .ok ⟨false, ⟨some "Eve", some "eve@example.com",
        some "2025-12-25", some "noonish"⟩, []⟩, [], .fail, false⟩
        ⟨[], ⟨[], 0, 0⟩⟩ (some "s1") "can we schedule an interview").state.db.docs =
      [(0, ⟨"Eve", "eve@example.com", "2025-12-25", "noonish", "s1", 0⟩)]
    ∧ timeValid "noonish" = false
    ∧ mkBookingRecord "Eve" "eve@example.com" "2025-12-25" "noonish" (some "s1") =
        .error "Time must be in HH:MM format" := by
  refine ⟨by decide, by decide, by rfl⟩

/-- C3 (amended): booking-field input validation runs only on the direct
`/booking/schedule` path, and it enforces the repository validators, not
the canonical forms.  (a) A record is persisted there exactly when
pydantic accepts it, and it equals the validated inputs.  (b) A
validator-rejected body gets a validation error and persists nothing.
(c) Concretely malformed fields — bad email, slash date, wordy time —
are rejected.  (d) But the validators are laxer than the canonical
`YYYY-MM-DD` / `HH:MM`: `fromisoformat` datetimes and `int()` underscore
times pass and are persisted.  (e) The `/rag/ask` booking-complete
branch persists extracted fields with no syntactic validation at all. -/
theorem booking_field_validation_scope :
    (∀ (saveFails : Bool) (db : BookingsDB) (name email date time : String)
        (sidOpt : Option String) (bid : Nat) (msg : String) (r : BookingRecord)
        (db' : BookingsDB),
        scheduleOp saveFails db name email date time sidOpt = (.ok bid msg r, db') →
        mkBookingRecord name email date time sidOpt = .ok r ∧
        r = ⟨name, email, date, time, sidOpt.getD "anonymous", none⟩ ∧
        db'.docs = db.docs ++
          [(db.next_id, ⟨name, email, date, time, sidOpt.getD "anonymous", db.now⟩)])
    ∧ (∀ (saveFails : Bool) (db : BookingsDB) (name email date time : String)
        (sidOpt : Option String) (d : String),
        mkBookingRecord name email date time sidOpt = .error d →
        scheduleOp saveFails db name email date time sidOpt = (.validationError d, db))
    ∧ mkBookingRecord "Eve" "not-an-email" "2025-12-25" "14:00" none =
        .error "email: value is not a valid email address"
    ∧ mkBookingRecord "Eve" "eve@example.com" "25/12/2025" "14:00" none =
        .error "Date must be in ISO format YYYY-MM-DD"
    ∧ mkBookingRecord "Eve" "eve@example.com" "2025-12-25" "noonish" none =
        .error "Time must be in HH:MM format"
    ∧ dateValid "2025-12-25 14:30:00" = true
    ∧ timeValid "1_0:30" = true
    ∧ timeValid "7:5" = true
    ∧ dateValid "0000-01-01" = false
    ∧ (∀ db : BookingsDB, ∃ bid msg r,
        scheduleOp false db "Ann Lee" "ann@example.com" "2025-12-25 14:30:00" "1_0:30" none
          = (.ok bid msg r,
             ⟨db.docs ++ [(db.next_id, ⟨"Ann Lee", "ann@example.com",
                 "2025-12-25 14:30:00", "1_0:30", "anonymous", db.now⟩)],
              db.next_id + 1, db.now⟩))
    ∧ ((askOp ⟨.error (), .ok ⟨false, ⟨some "Eve", some "eve@example.com",
            some "2025-12-25", some "noonish"⟩, []⟩, [], .fail, false⟩
          ⟨[], ⟨[], 0, 0⟩⟩ (some "s1") "please schedule my interview").state.db.docs =
        [(0, ⟨"Eve", "eve@example.com", "2025-12-25", "noonish", "s1", 0⟩)]
      ∧ timeValid "noonish" = false) := by
  refine ⟨?_, ?_, by rfl, by rfl, by rfl, by decide, by decide, by decide, by decide,
    fun db => ⟨_, _, _, rfl⟩, by decide, by decide⟩
  · intro saveFails db name email date time sidOpt bid msg r db' h
    rw [scheduleOp] at h
    cases hm : mkBookingRecord name email date time sidOpt with
    | error d => rw [hm] at h; cases h
    | ok r' =>
        rw [hm] at h
        obtain ⟨hr, -, -, -, -⟩ := mkBookingRecord_ok name email date time sidOpt r' hm
        cases hsf : saveFails with
        | true => rw [hsf] at h; simp at h
        | false =>
            rw [hsf] at h
            simp only [Bool.false_eq_true, if_false] at h
            rw [Prod.mk.injEq] at h
            obtain ⟨ho, hdb⟩ := h
            rw [ScheduleOutcome.ok.injEq] at ho
            obtain ⟨hbid, hmsg, hrr⟩ := ho
            subst hrr
            subst hr
            refine ⟨rfl, rfl, ?_⟩
            rw [← hdb]
            simp [saveBooking]
  · intro saveFails db name email date time sidOpt d hm
    rw [scheduleOp, hm]

/-- C3 witness: a concrete accepted schedule call instantiating the
persisted-implies-validated direction, and a concrete rejected call
instantiating the rejection direction. -/
theorem booking_field_validation_scope_witness :
    mkBookingRecord "John Doe" "john@example.com" "2025-12-25" "14:00" none =
      .ok ⟨"John Doe", "john@example.com", "2025-12-25", "14:00", "anonymous", none⟩
    ∧ scheduleOp false ⟨[], 0, 0⟩ "Eve" "eve@example.com" "2025-12-25" "noonish" none =
        (.validationError "Time must be in HH:MM format", ⟨[], 0, 0⟩) := by
  obtain ⟨hv, -, -⟩ := booking_field_validation_scope.1 false ⟨[], 0, 0⟩
    "John Doe" "john@example.com" "2025-12-25" "14:00" none 0
    "Interview scheduled successfully for John Doe on 2025-12-25 at 14:00"
    ⟨"John Doe", "john@example.com", "2025-12-25", "14:00", "anonymous", none⟩
    ⟨[(0, ⟨"John Doe", "john@example.com", "2025-12-25", "14:00", "anonymous", 0⟩)], 1, 0⟩
    (by decide)
  refine ⟨hv, ?_⟩
  exact booking_field_validation_scope.2.1 false ⟨[], 0, 0⟩
    "Eve" "eve@example.com" "2025-12-25" "noonish" none
    "Time must be in HH:MM format" (by rfl)

/-- C4 (counterexample): the fully empty query is rejected by the request
model (`min_length=1`) as a 422 validation error, not by the handler's
400 — so "rejects with HTTP 400" does not hold for the empty string. -/
theorem ask_empty_query_422 :
    askOp ⟨.error (), .error (), [], .fail, false⟩ ⟨[], ⟨[], 0, 0⟩⟩ none "" =
      ⟨.httpError 422 "String should have at least 1 character", ⟨[], ⟨[], 0, 0⟩⟩, []⟩
    ∧ (askOp ⟨.error (), .error (), [], .fail, false⟩ ⟨[], ⟨[], 0, 0⟩⟩ none "").outcome
        ≠ .httpError 400 "Query cannot be empty" := by
  constructor
  · rfl
  · decide

/-- C4 (amended): a query that strips to whitespace-only emptiness is
rejected before any collaborator call and leaves all state untouched —
the empty string by request validation with 422, any other blank query by
the handler with 400. -/
theorem ask_blank_query_rejected (env : Env) (st : SysState) (sidOpt : Option String)
    (q : String) (h : pyStrip q = "") :
    askOp env st sidOpt q =
      ⟨.httpError (if q = "" then 422 else 400)
         (if q = "" then "String should have at least 1 character"
          else "Query cannot be empty"),
       st, []⟩ := by
  by_cases h0 : q = ""
  · subst h0
    simp [askOp]
  · have hl : ¬ q.length < 1 := by rw [length_lt_one_iff]; exact h0
    simp [askOp, askHandler, hl, h, h0]

/-- C4 witness: a whitespace-only query is rejected with 400, no
collaborator call, state unchanged. -/
theorem ask_blank_query_rejected_witness :
    askOp ⟨.error (), .error (), [], .fail, false⟩ ⟨[], ⟨[], 0, 0⟩⟩ none "   " =
      ⟨.httpError 400 "Query cannot be empty", ⟨[], ⟨[], 0, 0⟩⟩, []⟩ := by
  rw [ask_blank_query_rejected _ _ _ _ (by decide), if_neg (by decide), if_neg (by decide)]

end RagBooking

namespace RagBooking

/-- C6: if the generation call of the answering branch fails or exceeds its
30-second timeout, the turn still returns a success whose answer is the
corresponding fixed apology string — the failure is never propagated as an
error. -/
theorem ask_generation_failure_apology (env : Env) (st : SysState)
    (sidOpt : Option String) (q : String)
    (hq : pyStrip q ≠ "")
    (hb : (detectBookingIntent env.intent (pyStrip q)).is_booking = false)
    (hg : env.gen = .fail ∨ env.gen = .timeout) :
    (askOp env st sidOpt q).outcome =
      .success (if env.gen = .fail
                then "Sorry, I\x27m having trouble responding right now."
                else "Sorry, the response took too long. Please try again.")
        (dedupeSources (buildSources env.hits)) (resolveSession sidOpt) false none := by
  rw [askOp_answering_eq env st sidOpt q hq hb]
  rcases hg with hg | hg <;> rw [hg] <;> simp [generateAnswer]

/-- C6 witness: a concrete timed-out generation still yields a success
carrying the timeout apology. -/
theorem ask_generation_failure_apology_witness :
    (askOp ⟨.error (), .error (), [], .timeout, false⟩ ⟨[], ⟨[], 0, 0⟩⟩
        none "hello there").outcome
      = .success "Sorry, the response took too long. Please try again." []
          "anonymous" false none := by
  have h := ask_generation_failure_apology ⟨.error (), .error (), [], .timeout, false⟩
    ⟨[], ⟨[], 0, 0⟩⟩ none "hello there" (by decide) (by decide) (Or.inr rfl)
  simpa using h

/-- C7: the answering branch returns, in first-seen order, the
deduplicated-by-source list of the built sources (no source identifier
appears twice), and every surfaced source carries the preview
`text.strip()[:150]` with `"..."` appended exactly when the stripped
passage exceeds 150 characters. -/
theorem ask_sources_dedup_and_preview (env : Env) (st : SysState)
    (sidOpt : Option String) (q : String)
    (hq : pyStrip q ≠ "")
    (hb : (detectBookingIntent env.intent (pyStrip q)).is_booking = false) :
    ∃ ans, (askOp env st sidOpt q).outcome =
        .success ans (firstSeenDedupBy (buildSources env.hits))
          (resolveSession sidOpt) false none
    ∧ ((firstSeenDedupBy (buildSources env.hits)).map (fun s => s.source)).Nodup
    ∧ ∀ si ∈ firstSeenDedupBy (buildSources env.hits), ∃ hit ∈ env.hits,
        pyStrip hit.text ≠ "" ∧ si.source = hit.sourceName.getD "Unknown document" ∧
        si.preview = pyTake (pyStrip hit.text) 150 ++
          (if 150 < (pyStrip hit.text).length then "..." else "") := by
  rw [askOp_answering_eq env st sidOpt q hq hb]
  refine ⟨_, by rw [dedupeSources_eq_firstSeen], firstSeenDedupBy_nodup _, ?_⟩
  intro si hsi
  have hmem : si ∈ buildSources env.hits := firstSeenDedupBy_subset _ si hsi
  rw [buildSources] at hmem
  obtain ⟨hit, hhit, hf⟩ := List.mem_filterMap.mp hmem
  by_cases ht : pyStrip hit.text = ""
  · simp [ht] at hf
  · refine ⟨hit, hhit, ht, ?_, ?_⟩ <;>
      · simp only [ht, if_false, Option.some.injEq] at hf
        rw [← hf]

/-- C7 witness: retrieval hits with sources a, a, b yield exactly the
sources a, b in first-seen order. -/
theorem ask_sources_dedup_and_preview_witness :
    ∃ ans, (askOp ⟨.error (), .error (),
        [⟨"ctx a", some "a"⟩, ⟨"ctx a2", some "a"⟩, ⟨"ctx b", some "b"⟩], .fail, false⟩
        ⟨[], ⟨[], 0, 0⟩⟩ none "why is the sky blue").outcome =
      .success ans [⟨"a", "ctx a"⟩, ⟨"b", "ctx b"⟩] "anonymous" false none := by
  obtain ⟨ans, h1, h2, h3⟩ := ask_sources_dedup_and_preview ⟨.error (), .error (),
    [⟨"ctx a", some "a"⟩, ⟨"ctx a2", some "a"⟩, ⟨"ctx b", some "b"⟩], .fail, false⟩
    ⟨[], ⟨[], 0, 0⟩⟩ none "why is the sky blue" (by decide) (by decide)
  refine ⟨ans, h1.trans ?_⟩
  show AskOutcome.success ans
      (firstSeenDedupBy (buildSources
        [⟨"ctx a", some "a"⟩, ⟨"ctx a2", some "a"⟩, ⟨"ctx b", some "b"⟩]))
      (resolveSession none) false none = _
  rw [← dedupeSources_eq_firstSeen]
  rfl

/-- C8: every successful `/rag/ask` turn, on any branch, appends exactly
the pair (user query, assistant answer) — in that order, for the resolved
session — to the conversation memory, and performs no other memory
write. -/
theorem ask_turn_memory_pair (env : Env) (st : SysState) (sidOpt : Option String)
    (q : String) (ans : String) (srcs : List SourceInfo) (sid : String)
    (bd : Bool) (bdata : Option ExtractData)
    (h : (askOp env st sidOpt q).outcome = .success ans srcs sid bd bdata) :
    sid = resolveSession sidOpt ∧
    (askOp env st sidOpt q).state.mem =
      st.mem ++ [⟨resolveSession sidOpt, Role.user, pyStrip q⟩,
                 ⟨resolveSession sidOpt, Role.assistant, ans⟩] := by
  by_cases hq0 : q.length < 1
  · simp [askOp, hq0] at h
  by_cases hq : pyStrip q = ""
  · simp [askOp, askHandler, hq0, hq] at h
  by_cases hb : (detectBookingIntent env.intent (pyStrip q)).is_booking
  · by_cases hc : (extractBookingInfo (pyStrip q)
        (getMessages st.mem (resolveSession sidOpt)) env.extract).complete
    · by_cases hs : env.saveFails
      · simp [askOp, askHandler, hq0, hq, hb, hc, hs] at h
      · simp [askOp, askHandler, hq0, hq, hb, hc, hs, AskOutcome.success.injEq] at h
        obtain ⟨h1, h2, h3, h4, h5⟩ := h
        subst h3
        refine ⟨rfl, ?_⟩
        rw [← h1]
        simp [askOp, askHandler, hq0, hq, hb, hc, hs, addMessage]
    · simp [askOp, askHandler, hq0, hq, hb, hc, AskOutcome.success.injEq] at h
      obtain ⟨h1, h2, h3, h4, h5⟩ := h
      subst h3
      refine ⟨rfl, ?_⟩
      rw [← h1]
      simp [askOp, askHandler, hq0, hq, hb, hc, addMessage]
  · simp [askOp, askHandler, hq0, hq, hb, AskOutcome.success.injEq] at h
    obtain ⟨h1, h2, h3, h4, h5⟩ := h
    subst h3
    refine ⟨rfl, ?_⟩
    rw [← h1]
    simp [askOp, askHandler, hq0, hq, hb, addMessage]

/-- C8 witness: a concrete successful turn appends exactly the user/assistant
pair to an empty memory. -/
theorem ask_turn_memory_pair_witness :
    (askOp ⟨.error (), .error (), [], .fail, false⟩ ⟨[], ⟨[], 0, 0⟩⟩
        (some "s7") "hi friend").state.mem =
      [⟨"s7", Role.user, "hi friend"⟩,
       ⟨"s7", Role.assistant, "Sorry, I\x27m having trouble responding right now."⟩] := by
  have h := ask_turn_memory_pair ⟨.error (), .error (), [], .fail, false⟩
    ⟨[], ⟨[], 0, 0⟩⟩ (some "s7") "hi friend"
    "Sorry, I\x27m having trouble responding right now." [] "s7" false none (by decide)
  rw [h.2]
  decide

end RagBooking

namespace RagBooking

/-- C9 (counterexample): the round-trip fails for a saved booking whose
fields do not re-validate — the rag path can save `time = "noonish"`, and
`get_booking_by_id` then re-raises the pydantic `ValidationError` instead
of returning the record. -/
theorem save_then_get_raises_on_invalid :
    getBookingById
        (saveBooking ⟨"Eve", "eve@example.com", "2025-12-25", "noonish"⟩ "s1" ⟨[], 0, 0⟩).1
        (saveBooking ⟨"Eve", "eve@example.com", "2025-12-25", "noonish"⟩ "s1" ⟨[], 0, 0⟩).2
      = .error "Time must be in HH:MM format" := rfl

/-- C9 (amended): a booking saved with `save_booking` whose fields pass
the `BookingRecord` validators — as every `/booking/schedule` booking
does — when fetched through `get_booking_by_id` at the identifier
`save_booking` returned, yields a record with exactly the given field
values, the session identifier, and the stored creation timestamp. -/
theorem save_booking_roundtrip (bf : BookingFields) (sid : String)
    (db : BookingsDB) (hwf : db.WF) (r : BookingRecord)
    (hv : mkBookingRecord bf.name bf.email bf.date bf.time (some sid) = .ok r) :
    getBookingById (saveBooking bf sid db).1 (saveBooking bf sid db).2
      = .ok (some ⟨bf.name, bf.email, bf.date, bf.time, sid, some db.now⟩) := by
  have hnone : db.docs.find? (fun p => p.1 = db.next_id) = none := by
    rw [List.find?_eq_none]
    intro x hx
    have := hwf x hx
    simp only [decide_eq_true_eq]
    omega
  obtain ⟨hr, -, -, -, -⟩ := mkBookingRecord_ok _ _ _ _ _ _ hv
  subst hr
  simp [getBookingById, saveBooking, List.find?_append, hnone, hv]

/-- C9 witness: the round-trip at a concrete validator-passing booking
over the empty collection. -/
theorem save_booking_roundtrip_witness :
    BookingsDB.WF ⟨[], 0, 0⟩
    ∧ getBookingById
        (saveBooking ⟨"John Doe", "john@example.com", "2025-12-25", "14:00"⟩ "s1" ⟨[], 0, 0⟩).1
        (saveBooking ⟨"John Doe", "john@example.com", "2025-12-25", "14:00"⟩ "s1" ⟨[], 0, 0⟩).2
        = .ok (some ⟨"John Doe", "john@example.com", "2025-12-25", "14:00", "s1", some 0⟩) :=
  ⟨fun p hp => absurd hp (by simp),
   save_booking_roundtrip ⟨"John Doe", "john@example.com", "2025-12-25", "14:00"⟩ "s1"
     ⟨[], 0, 0⟩ (fun p hp => absurd hp (by simp))
     ⟨"John Doe", "john@example.com", "2025-12-25", "14:00", "s1", none⟩ rfl⟩

end RagBooking
